import Mathlib

/-!
Shallow embedding of `src/app.py` of tplocher/tpconnect4, a websocket session
broker for a Connect Four game.

The module-level Python dicts `JOIN` and `WATCH` (token → session) are modelled
as association lists inside a `World`; the coroutines `start`, `join`, `watch`,
`handler`, `play` and `replay` are translated to pure functions that thread the
world state and return the list of send/broadcast actions they perform.  Per the
spec's concurrency model (section 5), all registry, broadcast-set and engine
mutation is synchronous and non-suspending, so a flow between two suspension
points is an atomic state transformation; interleavings of several connections
are modelled by sequencing these transformations.

The game engine (`connect4.Connect4`, imported by `app.py` but not present
under `src/`) is modelled from the spec: sections 3 and 6 give its contract
(`applyMove(player, column) -> row | fails(IllegalMove)` with failure causes
column full / game already over / wrong turn / out-of-range column; an
append-only move list; a winner that is set at most once and never unset; and
accessors exposing the session's join/watch/start identifiers stored by
`saveLinkIDs`).  Win detection is internal to the engine and unspecified, so it
is a `checkWin` parameter.
-/

namespace TpConnect4

/-- Connection identifier: one per websocket connection. -/
abbrev ConnId := Nat

/-- The two players, `PLAYER1` and `PLAYER2` imported from the engine. -/
inductive Player
  | p1
  | p2
  deriving DecidableEq

/-- One historical move as stored by the engine: the player, the submitted
column, and the row the piece settled into. -/
structure Move where
  player : Player
  column : Int
  row : Nat
  deriving DecidableEq

/-- Modelled from the spec: the engine's `GameState` (`connect4.Connect4` is
not under `src/`): an ordered, append-only move sequence plus a terminal
winner that is absent until decided (spec section 3). -/
structure Connect4 where
  moves : List Move
  winner : Option Player
  deriving DecidableEq

/-- `Connect4()` in `start`: a fresh game with no moves and no winner. -/
def Connect4.new : Connect4 :=
  ⟨[], none⟩

/-- Modelled from the spec: the engine's current turn owner (spec section 3
lists it as GameState data).  The first player moves first and the turn
alternates with each applied move. -/
def Connect4.turn (g : Connect4) : Player :=
  if g.moves.length % 2 = 0 then Player.p1 else Player.p2

/-- Modelled from the spec: the row a piece dropped in column `c` settles
into — the number of pieces already in that column. -/
def Connect4.landingRow (g : Connect4) (c : Int) : Nat :=
  (g.moves.filter (fun m => decide (m.column = c))).length

/-- Modelled from the spec: the engine contract
`applyMove(player, column) -> row | fails(IllegalMove)` (spec section 6).
It fails on a game that is already over, a move out of turn, an out-of-range
column, or a full column (the spec's four IllegalMove causes), and otherwise
appends the move at the landing row and decides the winner.  Win detection is
internal to the engine, so it is the parameter `checkWin`; success requires the
previous winner to be absent, so a winner is set at most once and never
unset. -/
def Connect4.play (checkWin : List Move → Option Player) (g : Connect4)
    (p : Player) (c : Int) : Except String (Connect4 × Nat) :=
  if g.winner.isSome then Except.error "This game is already over."
  else if ¬ p = g.turn then Except.error "It is not your turn."
  else if c < 0 ∨ 6 < c then Except.error "The column is out of range."
  else if 6 ≤ g.landingRow c then Except.error "The column is full."
  else
    Except.ok (⟨g.moves ++ [⟨p, c, g.landingRow c⟩],
      checkWin (g.moves ++ [⟨p, c, g.landingRow c⟩])⟩, g.landingRow c)

/-- The role named in an `init` event. -/
inductive Role
  | player1
  | player2
  | spectator
  deriving DecidableEq

/-- Server-to-client wire events of `app.py`.  The `join` component of `init`
is an `Option` because the `"join"` key is present in the JSON object only for
some roles. -/
inductive Event
  | init (role : Role) (join : Option String) (watch : String) (start : String)
  | play (player : Player) (column : Int) (row : Nat) (moves : Nat)
  | win (player : Player)
  | error (message : String)
  deriving DecidableEq

/-- One transmission performed by the server: `websocket.send` to a single
connection, or `websockets.broadcast` to the connections of a broadcast set. -/
inductive Action
  | send (conn : ConnId) (event : Event)
  | broadcast (conns : List ConnId) (event : Event)
  deriving DecidableEq

/-- An inbound client message as seen by the `play` loop: a parsed `play`
event carrying a column, or a malformed message (bad JSON, a `type` other
than `"play"`, or a missing `"column"` key), which makes the loop body's
`assert`/key lookup raise. -/
inductive ClientMsg
  | play (column : Int)
  | malformed
  deriving DecidableEq

/-- How a flow's body ended: normally (including by the connection closing),
or by a protocol violation (an uncaught `AssertionError`/`KeyError`). -/
inductive Outcome
  | ok
  | violation
  deriving DecidableEq

/-- The event carried by an action. -/
def Action.event : Action → Event
  | Action.send _ e => e
  | Action.broadcast _ e => e

def Event.isInit : Event → Bool
  | Event.init _ _ _ _ => true
  | _ => false

def Event.isPlay : Event → Bool
  | Event.play _ _ _ _ => true
  | _ => false

def Event.isWin : Event → Bool
  | Event.win _ => true
  | _ => false

def Event.isError : Event → Bool
  | Event.error _ => true
  | _ => false

/-- Number of actions in a trace whose event satisfies `f`. -/
def countEvents (f : Event → Bool) (tr : List Action) : Nat :=
  (tr.filter (fun a => f a.event)).length

/-- Lookup in a Python dict modelled as an association list (`d[k]`,
`none` when the key is absent). -/
def dget {α β : Type} [DecidableEq α] : List (α × β) → α → Option β
  | [], _ => none
  | (k, v) :: rest, k' => if k = k' then some v else dget rest k'

/-- Removal of every binding of a key (helper for `dset` and `ddel`). -/
def derase {α β : Type} [DecidableEq α] (d : List (α × β)) (k : α) :
    List (α × β) :=
  d.filter (fun p => !decide (p.1 = k))

/-- Python `d[k] = v`: inserts or overwrites.  Only `dget` ever observes a
dict, so entry order is irrelevant. -/
def dset {α β : Type} [DecidableEq α] (d : List (α × β)) (k : α) (v : β) :
    List (α × β) :=
  (k, v) :: derase d k

/-- Python `del d[k]`: `none` models the `KeyError` raised when `k` is
absent. -/
def ddel {α β : Type} [DecidableEq α] (d : List (α × β)) (k : α) :
    Option (List (α × β)) :=
  if (dget d k).isSome then some (derase d k) else none

/-- One session: the shared game, the broadcast set `websocketSet`, and the
identifiers stored on the game by `game.saveLinkIDs(game, websocketSet,
join_key, watch_key)` and exposed as `game.join` / `game.watch` / `game.start`
(modelled from the spec, section 6: accessors exposing the session's own
join/watch/start identifiers for echoing back in `init`). -/
structure Session where
  game : Connect4
  members : List ConnId
  joinTok : String
  watchTok : String
  startMark : String
  deriving DecidableEq

/-- The process-wide mutable state: the `JOIN` and `WATCH` registries and a
store of sessions.  In Python the registry values are shared references to the
`(game, websocketSet)` pair; the indirection through a session identifier
models that sharing. -/
structure World where
  JOIN : List (String × Nat)
  WATCH : List (String × Nat)
  sessions : List (Nat × Session)
  deriving DecidableEq

/-- Python `websocketSet.add(websocket)`: adding to a set is a no-op when the
element is already present. -/
def addMember (l : List ConnId) (c : ConnId) : List ConnId :=
  if c ∈ l then l else l ++ [c]

/-- Python `websocketSet.remove(websocket)` in the `finally` of `join`/`watch`
(the connection was added before the `try`, so the element is present). -/
def removeMember (l : List ConnId) (c : ConnId) : List ConnId :=
  l.filter (fun x => !decide (x = c))

/-- The result of running one flow to completion: the world it leaves behind,
the actions it performed in order, how its body ended, and whether its cleanup
itself raised (`KeyError` from a `del` in the `finally` of `start`). -/
structure FlowResult where
  world : World
  trace : List Action
  outcome : Outcome
  cleanupRaised : Bool
  deriving DecidableEq

/-- One iteration of the loop body of `play` (app.py lines 54 to 84) for an
already parsed column: submit the move to the engine; on `RuntimeError` send
one `error` event to the submitting connection only; on success broadcast one
`play` event carrying the player, the column, the landing row and
`len(game.moves)` to the whole broadcast set, then, if the game now has a
winner, broadcast one `win` event. -/
def playStep (checkWin : List Move → Option Player) (g : Connect4) (p : Player)
    (members : List ConnId) (self : ConnId) (c : Int) :
    Connect4 × List Action :=
  match Connect4.play checkWin g p c with
  | Except.error msg => (g, [Action.send self (Event.error msg)])
  | Except.ok (g', row) =>
    let playB := Action.broadcast members (Event.play p c row g'.moves.length)
    match g'.winner with
    | some w => (g', [playB, Action.broadcast members (Event.win w)])
    | none => (g', [playB])

/-- The loop `async for message in websocket` of `play`: processes inbound
messages in order; a malformed message makes `json.loads`, the `assert` or the
`"column"` lookup raise, ending the loop as a protocol violation with no event
sent for that message; exhausting the list models the connection closing, the
normal end of the loop. -/
def playLoop (checkWin : List Move → Option Player) (p : Player)
    (members : List ConnId) (self : ConnId) :
    Connect4 → List ClientMsg → Connect4 × List Action × Outcome
  | g, [] => (g, [], Outcome.ok)
  | g, ClientMsg.malformed :: _ => (g, [], Outcome.violation)
  | g, ClientMsg.play c :: rest =>
    let s := playStep checkWin g p members self c
    let r := playLoop checkWin p members self s.1 rest
    (r.1, s.2 ++ r.2.1, r.2.2)

/-- The body of the `for moveI, (player, column, row) in enumerate(...)` loop
of `replay`, carrying the running index. -/
def replayFrom (self : ConnId) : Nat → List Move → List Action
  | _, [] => []
  | i, m :: rest =>
    Action.send self (Event.play m.player m.column m.row (i + 1)) ::
      replayFrom self (i + 1) rest

/-- `replay` (app.py lines 30 to 47): iterates over `game.moves.copy()` —
a point-in-time snapshot, modelled by taking the move list by value — and
sends one `play` event per historical move, numbered from 1 by `moveI+1`. -/
def replayActions (self : ConnId) (moves : List Move) : List Action :=
  replayFrom self 0 moves

/-- Python `if join:` on the optional `joinID` handshake field: the supplied
seed is used only when it is truthy, i.e. present and non-empty; otherwise
`secrets.token_urlsafe(12)` (the `gen` parameter) is used. -/
def chooseJoinKey : Option String → String → String
  | some s, gen => if s = "" then gen else s
  | none, gen => gen

/-- The registration phase of `start` (app.py lines 93 to 105): create a fresh
game and a broadcast set holding only this connection, choose the join key,
insert into `JOIN` and `WATCH` (Python dict assignment: last writer wins), and
store the identifiers on the game via `saveLinkIDs`.  The fresh watch key, the
generated join key and the session's start marker are parameters, modelling
`secrets.token_urlsafe` and the engine-provided `game.start`.  Returns the new
world and the chosen join key. -/
def startRegister (w : World) (self : ConnId) (seed : Option String)
    (sid : Nat) (joinGen watchGen startMark : String) : World × String :=
  let jk := chooseJoinKey seed joinGen
  (⟨dset w.JOIN jk sid, dset w.WATCH watchGen sid,
    dset w.sessions sid ⟨Connect4.new, [self], jk, watchGen, startMark⟩⟩, jk)

/-- The `finally` of `start` (app.py lines 120 to 122): `del JOIN[join_key]`
then `del WATCH[watch_key]`.  If the first `del` raises `KeyError`, the
exception propagates out of the `finally` and the second `del` never runs.
The returned flag records whether a `KeyError` was raised. -/
def unregisterStart (w : World) (jk wk : String) : World × Bool :=
  match ddel w.JOIN jk with
  | none => (w, true)
  | some j =>
    match ddel w.WATCH wk with
    | none => ({ w with JOIN := j }, true)
    | some wd => ({ w with JOIN := j, WATCH := wd }, false)

/-- `start` (app.py lines 87 to 122): register, send the `init` event naming
`player1` and carrying the join key, the watch key and the start marker, run
the `play` loop as `PLAYER1`, and on every exit of the `try` body run the
`finally` that deletes both registry entries.  The broadcast set starts as
`{websocket}` and `start` never removes the starter from it. -/
def startFlow (checkWin : List Move → Option Player) (w : World)
    (self : ConnId) (seed : Option String) (sid : Nat)
    (joinGen watchGen startMark : String) (msgs : List ClientMsg) :
    FlowResult :=
  let reg := startRegister w self seed sid joinGen watchGen startMark
  let jk := reg.2
  let r := playLoop checkWin Player.p1 [self] self Connect4.new msgs
  let w2 := { reg.1 with
    sessions := (dset reg.1.sessions sid ⟨r.1, [self], jk, watchGen, startMark⟩) }
  let u := unregisterStart w2 jk watchGen
  ⟨u.1,
    Action.send self (Event.init Role.player1 (some jk) watchGen startMark)
      :: r.2.1,
    r.2.2, u.2⟩

/-- `join` (app.py lines 125 to 154): resolve the token in `JOIN`; on
`KeyError` send one `error` event ("Game not found.") and return, mutating
nothing.  Otherwise add the connection to the broadcast set, send the `init`
event naming `player2` — note it carries `"join": game.join` — replay the
history, run the `play` loop as `PLAYER2`, and in the `finally` remove the
connection from the broadcast set.  A resolved token always designates a live
session in Python (the registry value is the session pair itself); the
unreachable dangling-identifier case returns the world unchanged. -/
def joinFlow (checkWin : List Move → Option Player) (w : World)
    (self : ConnId) (tok : String) (msgs : List ClientMsg) : FlowResult :=
  match dget w.JOIN tok with
  | none =>
    ⟨w, [Action.send self (Event.error "Game not found.")], Outcome.ok, false⟩
  | some sid =>
    match dget w.sessions sid with
    | none => ⟨w, [], Outcome.ok, false⟩
    | some s =>
      let mem1 := addMember s.members self
      let r := playLoop checkWin Player.p2 mem1 self s.game msgs
      ⟨{ w with sessions := (dset w.sessions sid
          ⟨r.1, removeMember mem1 self, s.joinTok, s.watchTok, s.startMark⟩) },
        Action.send self
            (Event.init Role.player2 (some s.joinTok) s.watchTok s.startMark)
          :: (replayActions self s.game.moves ++ r.2.1),
        r.2.2, false⟩

/-- `watch` (app.py lines 157 to 185): resolve the token in `WATCH`; on
`KeyError` send one `error` event ("Game not found.") and return, mutating
nothing.  Otherwise add the connection to the broadcast set, send the `init`
event naming `spectator` — it carries no `"join"` key — replay the history,
then `await websocket.wait_closed()`: the flow idles without ever reading an
inbound message, so `msgs` is unused; in the `finally` remove the connection
from the broadcast set. -/
def watchFlow (w : World) (self : ConnId) (tok : String)
    (msgs : List ClientMsg) : FlowResult :=
  match dget w.WATCH tok with
  | none =>
    ⟨w, [Action.send self (Event.error "Game not found.")], Outcome.ok, false⟩
  | some sid =>
    match dget w.sessions sid with
    | none => ⟨w, [], Outcome.ok, false⟩
    | some s =>
      let mem1 := addMember s.members self
      ⟨{ w with sessions := (dset w.sessions sid
          ⟨s.game, removeMember mem1 self, s.joinTok, s.watchTok, s.startMark⟩) },
        Action.send self
            (Event.init Role.spectator none s.watchTok s.startMark)
          :: replayActions self s.game.moves,
        Outcome.ok, false⟩

/-- The classification of the handshake message by `handler` (app.py lines
188 to 209): `"join" in event` → join an existing game; else `"watch" in
event` → watch; else start a new game with the optional `"joinID"` seed.
`malformed` covers a first message that is not valid JSON or whose `type` is
not `"init"`, which makes `json.loads`/`assert` raise. -/
inductive Handshake
  | startNew (joinID : Option String)
  | joinGame (tok : String)
  | watchGame (tok : String)
  | malformed
  deriving DecidableEq

/-- `handler`: read one handshake message and dispatch to exactly one flow.
A malformed handshake raises before any event is sent. -/
def handler (checkWin : List Move → Option Player) (w : World)
    (self : ConnId) (h : Handshake) (sid : Nat)
    (joinGen watchGen startMark : String) (msgs : List ClientMsg) :
    FlowResult :=
  match h with
  | Handshake.malformed => ⟨w, [], Outcome.violation, false⟩
  | Handshake.joinGame t => joinFlow checkWin w self t msgs
  | Handshake.watchGame t => watchFlow w self t msgs
  | Handshake.startNew seed =>
    startFlow checkWin w self seed sid joinGen watchGen startMark msgs

/-- A session-lifetime run of the move pipeline: the two players' `play`
loops interleaved in an arbitrary order, processing each submitted
`(player, column)` against the shared game.  `connOf` names each player's
connection and `members` the session's broadcast set. -/
def runMoves (checkWin : List Move → Option Player)
    (connOf : Player → ConnId) (members : List ConnId) :
    Connect4 → List (Player × Int) → Connect4 × List Action
  | g, [] => (g, [])
  | g, (p, c) :: rest =>
    let s := playStep checkWin g p members (connOf p) c
    let r := runMoves checkWin connOf members s.1 rest
    (r.1, s.2 ++ r.2)

/-- Whether the handshake resolves to a flow that reaches its `init` send:
a start always does; a join/watch only when its token is registered (and the
registered identifier designates a live session, which in Python is always
the case); a malformed handshake reaches no flow. -/
def resolvesB (w : World) (h : Handshake) : Bool :=
  match h with
  | Handshake.startNew _ => true
  | Handshake.malformed => false
  | Handshake.joinGame t =>
    match dget w.JOIN t with
    | some sid => (dget w.sessions sid).isSome
    | none => false
  | Handshake.watchGame t =>
    match dget w.WATCH t with
    | some sid => (dget w.sessions sid).isSome
    | none => false

/-- The property asserted by the spec's event table for a trace: every `init`
event for the `player2` or `spectator` role carries no join-token field. -/
def noJoinOutsidePlayer1 (tr : List Action) : Bool :=
  tr.all (fun a =>
    match a.event with
    | Event.init Role.player2 j _ _ => j.isNone
    | Event.init Role.spectator j _ _ => j.isNone
    | _ => true)

/-- Whether the first action of a trace is an `init` event sent to the given
connection. -/
def headIsInitFor (self : ConnId) (tr : List Action) : Bool :=
  match tr.head? with
  | some (Action.send c e) => decide (c = self) && e.isInit
  | _ => false

/-! ## Lemmas about the dict operations -/

theorem dget_derase_self {α β : Type} [DecidableEq α] (d : List (α × β))
    (k : α) : dget (derase d k) k = none := by
  induction d with
  | nil => rfl
  | cons p rest ih =>
    obtain ⟨a, b⟩ := p
    by_cases h : a = k
    · simpa [derase, List.filter_cons, h] using ih
    · simp only [derase, List.filter_cons] at ih ⊢
      simp only [h, decide_False, Bool.not_false, if_true, decide_True,
        Bool.not_true, if_false]
      simp [dget, h, ih]

theorem dget_derase_ne {α β : Type} [DecidableEq α] (d : List (α × β))
    (k k' : α) (h : ¬ k' = k) : dget (derase d k) k' = dget d k' := by
  induction d with
  | nil => rfl
  | cons p rest ih =>
    obtain ⟨a, b⟩ := p
    by_cases ha : a = k
    · subst ha
      have hne : ¬ a = k' := fun hh => h hh.symm
      simpa [derase, List.filter_cons, dget, hne] using ih
    · by_cases hb : a = k'
      · simp [derase, List.filter_cons, ha, dget, hb, h]
      · simpa [derase, List.filter_cons, ha, dget, hb] using ih

theorem dget_dset_self {α β : Type} [DecidableEq α] (d : List (α × β))
    (k : α) (v : β) : dget (dset d k v) k = some v := by
  simp [dset, dget]

theorem dget_dset_ne {α β : Type} [DecidableEq α] (d : List (α × β))
    (k k' : α) (v : β) (h : ¬ k' = k) : dget (dset d k v) k' = dget d k' := by
  have hk : ¬ k = k' := fun hh => h hh.symm
  simp [dset, dget, hk, dget_derase_ne d k k' h]

theorem ddel_of_isSome {α β : Type} [DecidableEq α] (d : List (α × β))
    (k : α) (h : (dget d k).isSome = true) : ddel d k = some (derase d k) := by
  simp [ddel, h]

theorem ddel_of_none {α β : Type} [DecidableEq α] (d : List (α × β))
    (k : α) (h : dget d k = none) : ddel d k = none := by
  simp [ddel, h]

/-! ## Lemmas about the engine model -/

theorem play_error_of_winner_some (cw : List Move → Option Player)
    (g : Connect4) (p : Player) (c : Int) (h : g.winner.isSome = true) :
    Connect4.play cw g p c = Except.error "This game is already over." := by
  simp [Connect4.play, h]

theorem play_ok_spec (cw : List Move → Option Player) (g : Connect4)
    (p : Player) (c : Int) (g' : Connect4) (row : Nat)
    (h : Connect4.play cw g p c = Except.ok (g', row)) :
    g.winner = none ∧ row = g.landingRow c ∧
    g'.moves = g.moves ++ [⟨p, c, row⟩] ∧
    g'.winner = cw (g.moves ++ [⟨p, c, row⟩]) := by
  unfold Connect4.play at h
  split at h
  case isTrue h1 => simp at h
  case isFalse h1 =>
  split at h
  · simp at h
  split at h
  · simp at h
  split at h
  · simp at h
  have h2 := Except.ok.inj h
  rw [Prod.mk.injEq] at h2
  obtain ⟨hg, hr⟩ := h2
  subst hr
  have hwn : g.winner = none := by
    cases hww : g.winner with
    | none => rfl
    | some wv => rw [hww] at h1; simp at h1
  refine ⟨hwn, rfl, ?_, ?_⟩
  · rw [← hg]
  · rw [← hg]

/-! ## Lemmas about the move pipeline -/

theorem playStep_error (cw : List Move → Option Player) (g : Connect4)
    (p : Player) (ms : List ConnId) (self : ConnId) (c : Int) (msg : String)
    (h : Connect4.play cw g p c = Except.error msg) :
    playStep cw g p ms self c = (g, [Action.send self (Event.error msg)]) := by
  simp [playStep, h]

theorem playStep_ok (cw : List Move → Option Player) (g : Connect4)
    (p : Player) (ms : List ConnId) (self : ConnId) (c : Int)
    (g' : Connect4) (row : Nat)
    (h : Connect4.play cw g p c = Except.ok (g', row)) :
    playStep cw g p ms self c =
      (g', Action.broadcast ms (Event.play p c row g'.moves.length) ::
        (match g'.winner with
         | some w => [Action.broadcast ms (Event.win w)]
         | none => [])) := by
  cases hw : g'.winner <;> simp [playStep, h, hw]

theorem playStep_winner_some (cw : List Move → Option Player) (g : Connect4)
    (p : Player) (ms : List ConnId) (self : ConnId) (c : Int)
    (h : g.winner.isSome = true) :
    playStep cw g p ms self c =
      (g, [Action.send self (Event.error "This game is already over.")]) :=
  playStep_error cw g p ms self c _ (play_error_of_winner_some cw g p c h)

theorem countEvents_cons (f : Event → Bool) (a : Action) (tr : List Action) :
    countEvents f (a :: tr) =
      (if f a.event then 1 else 0) + countEvents f tr := by
  simp only [countEvents, List.filter_cons]
  split <;> simp [Nat.add_comm]

theorem countEvents_append (f : Event → Bool) (a b : List Action) :
    countEvents f (a ++ b) = countEvents f a + countEvents f b := by
  simp [countEvents, List.filter_append]

theorem countEvents_playStep_init (cw : List Move → Option Player)
    (g : Connect4) (p : Player) (ms : List ConnId) (self : ConnId) (c : Int) :
    countEvents Event.isInit (playStep cw g p ms self c).2 = 0 := by
  cases hp : Connect4.play cw g p c with
  | error m =>
    rw [playStep_error cw g p ms self c m hp]
    simp [countEvents, Action.event, Event.isInit]
  | ok pr =>
    obtain ⟨g', row⟩ := pr
    rw [playStep_ok cw g p ms self c g' row hp]
    cases g'.winner <;>
      simp [countEvents, Action.event, Event.isInit, List.filter_cons]

theorem countEvents_playLoop_init (cw : List Move → Option Player)
    (p : Player) (ms : List ConnId) (self : ConnId) :
    ∀ (msgs : List ClientMsg) (g : Connect4),
      countEvents Event.isInit (playLoop cw p ms self g msgs).2.1 = 0 := by
  intro msgs
  induction msgs with
  | nil => intro g; simp [playLoop, countEvents]
  | cons msg rest ih =>
    intro g
    cases msg with
    | malformed => simp [playLoop, countEvents]
    | play c =>
      simp [playLoop, countEvents_append, ih, countEvents_playStep_init]

theorem countEvents_replayFrom (f : Event → Bool)
    (hf : ∀ p c r n, f (Event.play p c r n) = false) (self : ConnId) :
    ∀ (moves : List Move) (i : Nat),
      countEvents f (replayFrom self i moves) = 0 := by
  intro moves
  induction moves with
  | nil => intro i; rfl
  | cons m rest ih =>
    intro i
    simp [replayFrom, countEvents_cons, Action.event, hf, ih]

theorem countEvents_replayActions_init (self : ConnId) (moves : List Move) :
    countEvents Event.isInit (replayActions self moves) = 0 :=
  countEvents_replayFrom Event.isInit (fun _ _ _ _ => rfl) self moves 0

theorem countEvents_replayActions_error (self : ConnId) (moves : List Move) :
    countEvents Event.isError (replayActions self moves) = 0 :=
  countEvents_replayFrom Event.isError (fun _ _ _ _ => rfl) self moves 0

theorem countEvents_replayActions_win (self : ConnId) (moves : List Move) :
    countEvents Event.isWin (replayActions self moves) = 0 :=
  countEvents_replayFrom Event.isWin (fun _ _ _ _ => rfl) self moves 0

theorem runMoves_cons (cw : List Move → Option Player)
    (connOf : Player → ConnId) (ms : List ConnId) (g : Connect4)
    (p : Player) (c : Int) (rest : List (Player × Int)) :
    runMoves cw connOf ms g ((p, c) :: rest) =
      ((runMoves cw connOf ms (playStep cw g p ms (connOf p) c).1 rest).1,
       (playStep cw g p ms (connOf p) c).2 ++
         (runMoves cw connOf ms (playStep cw g p ms (connOf p) c).1 rest).2) :=
  rfl

theorem runMoves_winner_some (cw : List Move → Option Player)
    (connOf : Player → ConnId) (ms : List ConnId) :
    ∀ (l : List (Player × Int)) (g : Connect4), g.winner.isSome = true →
      (runMoves cw connOf ms g l).1 = g ∧
      countEvents Event.isWin (runMoves cw connOf ms g l).2 = 0 := by
  intro l
  induction l with
  | nil => intro g hg; exact ⟨rfl, rfl⟩
  | cons pc rest ih =>
    intro g hg
    obtain ⟨p, c⟩ := pc
    have hs := playStep_winner_some cw g p ms (connOf p) c hg
    obtain ⟨ih1, ih2⟩ := ih g hg
    constructor
    · rw [runMoves_cons, hs]
      simpa using ih1
    · rw [runMoves_cons, hs, countEvents_append]
      have h1 : countEvents Event.isWin
          ((g, [Action.send (connOf p)
            (Event.error "This game is already over.")]).2) = 0 := rfl
      rw [h1]
      simpa using ih2

theorem playStep_win_inversion (cw : List Move → Option Player)
    (g : Connect4) (p : Player) (ms : List ConnId) (self : ConnId) (c : Int)
    (h : 0 < countEvents Event.isWin (playStep cw g p ms self c).2) :
    ∃ w g' row, Connect4.play cw g p c = Except.ok (g', row) ∧
      g.winner = none ∧ g'.winner = some w ∧
      (playStep cw g p ms self c).1 = g' ∧
      (playStep cw g p ms self c).2 =
        [Action.broadcast ms (Event.play p c row g'.moves.length),
         Action.broadcast ms (Event.win w)] := by
  cases hp : Connect4.play cw g p c with
  | error m =>
    rw [playStep_error cw g p ms self c m hp] at h
    simp [countEvents, Action.event, Event.isWin] at h
  | ok pr =>
    obtain ⟨g', row⟩ := pr
    cases hw : g'.winner with
    | none =>
      rw [playStep_ok cw g p ms self c g' row hp] at h
      simp [hw, countEvents, Action.event, Event.isWin,
        List.filter_cons] at h
    | some w =>
      refine ⟨w, g', row, ?_, (play_ok_spec cw g p c g' row hp).1, ?_, ?_, ?_⟩
      · rfl
      · first
        | rfl
        | exact hw
      · rw [playStep_ok cw g p ms self c g' row hp]
      · rw [playStep_ok cw g p ms self c g' row hp, hw]

theorem winCount_runMoves (cw : List Move → Option Player)
    (connOf : Player → ConnId) (ms : List ConnId) :
    ∀ (l : List (Player × Int)) (g : Connect4),
      countEvents Event.isWin (runMoves cw connOf ms g l).2 ≤ 1 := by
  intro l
  induction l with
  | nil => intro g; simp [runMoves, countEvents]
  | cons pc rest ih =>
    intro g
    obtain ⟨p, c⟩ := pc
    rw [runMoves_cons, countEvents_append]
    by_cases h0 :
        countEvents Event.isWin (playStep cw g p ms (connOf p) c).2 = 0
    · rw [h0]
      simpa using ih _
    · obtain ⟨w, g', row, hok, hwn, hws, hg1, htr⟩ :=
        playStep_win_inversion cw g p ms (connOf p) c (Nat.pos_of_ne_zero h0)
      rw [htr, hg1]
      have hrest := (runMoves_winner_some cw connOf ms rest g'
        (by simp [hws])).2
      rw [hrest]
      have hc : countEvents Event.isWin
          [Action.broadcast ms (Event.play p c row g'.moves.length),
           Action.broadcast ms (Event.win w)] = 1 := rfl
      rw [hc]

theorem replayFrom_length (self : ConnId) :
    ∀ (moves : List Move) (i : Nat),
      (replayFrom self i moves).length = moves.length := by
  intro moves
  induction moves with
  | nil => intro i; rfl
  | cons m rest ih => intro i; simp [replayFrom, ih]

theorem replayFrom_get (self : ConnId) :
    ∀ (moves : List Move) (j i : Nat) (m : Move), moves.get? i = some m →
      (replayFrom self j moves).get? i =
        some (Action.send self
          (Event.play m.player m.column m.row (j + i + 1))) := by
  intro moves
  induction moves with
  | nil => intro j i m h; simp at h
  | cons m0 rest ih =>
    intro j i m h
    cases i with
    | zero =>
      simp only [List.get?] at h
      cases h
      simp [replayFrom]
    | succ i' =>
      simp only [List.get?] at h
      have := ih (j + 1) i' m h
      have harith : j + 1 + i' + 1 = j + (i' + 1) + 1 := by omega
      rw [harith] at this
      simpa [replayFrom] using this

theorem startFlow_trace (cw : List Move → Option Player) (w : World)
    (self : ConnId) (seed : Option String) (sid : Nat)
    (jg wg sm : String) (msgs : List ClientMsg) :
    (startFlow cw w self seed sid jg wg sm msgs).trace =
      Action.send self
          (Event.init Role.player1 (some (chooseJoinKey seed jg)) wg sm) ::
        (playLoop cw Player.p1 [self] self Connect4.new msgs).2.1 :=
  rfl

theorem joinFlow_resolved (cw : List Move → Option Player) (w : World)
    (self : ConnId) (tok : String) (msgs : List ClientMsg) (sid : Nat)
    (s : Session) (hj : dget w.JOIN tok = some sid)
    (hs : dget w.sessions sid = some s) :
    joinFlow cw w self tok msgs =
      ⟨{ w with sessions := (dset w.sessions sid
          ⟨(playLoop cw Player.p2 (addMember s.members self) self
              s.game msgs).1,
           removeMember (addMember s.members self) self,
           s.joinTok, s.watchTok, s.startMark⟩) },
        Action.send self
            (Event.init Role.player2 (some s.joinTok) s.watchTok s.startMark)
          :: (replayActions self s.game.moves ++
              (playLoop cw Player.p2 (addMember s.members self) self
                s.game msgs).2.1),
        (playLoop cw Player.p2 (addMember s.members self) self
          s.game msgs).2.2,
        false⟩ := by
  simp only [joinFlow, hj, hs]

theorem watchFlow_resolved (w : World) (self : ConnId) (tok : String)
    (msgs : List ClientMsg) (sid : Nat) (s : Session)
    (hw : dget w.WATCH tok = some sid) (hs : dget w.sessions sid = some s) :
    watchFlow w self tok msgs =
      ⟨{ w with sessions := (dset w.sessions sid
          ⟨s.game, removeMember (addMember s.members self) self,
           s.joinTok, s.watchTok, s.startMark⟩) },
        Action.send self
            (Event.init Role.spectator none s.watchTok s.startMark)
          :: replayActions self s.game.moves,
        Outcome.ok, false⟩ := by
  simp only [watchFlow, hw, hs]

theorem unregisterStart_present (w : World) (jk wk : String)
    (h1 : (dget w.JOIN jk).isSome = true)
    (h2 : (dget w.WATCH wk).isSome = true) :
    unregisterStart w jk wk =
      (⟨derase w.JOIN jk, derase w.WATCH wk, w.sessions⟩, false) := by
  simp only [unregisterStart, ddel_of_isSome w.JOIN jk h1,
    ddel_of_isSome w.WATCH wk h2]

theorem startFlow_world (cw : List Move → Option Player) (w : World)
    (self : ConnId) (seed : Option String) (sid : Nat)
    (jg wg sm : String) (msgs : List ClientMsg) :
    (startFlow cw w self seed sid jg wg sm msgs).world =
      (unregisterStart
        ⟨dset w.JOIN (chooseJoinKey seed jg) sid, dset w.WATCH wg sid,
         dset (dset w.sessions sid
            ⟨Connect4.new, [self], chooseJoinKey seed jg, wg, sm⟩) sid
           ⟨(playLoop cw Player.p1 [self] self Connect4.new msgs).1, [self],
            chooseJoinKey seed jg, wg, sm⟩⟩
        (chooseJoinKey seed jg) wg).1 ∧
    (startFlow cw w self seed sid jg wg sm msgs).cleanupRaised =
      (unregisterStart
        ⟨dset w.JOIN (chooseJoinKey seed jg) sid, dset w.WATCH wg sid,
         dset (dset w.sessions sid
            ⟨Connect4.new, [self], chooseJoinKey seed jg, wg, sm⟩) sid
           ⟨(playLoop cw Player.p1 [self] self Connect4.new msgs).1, [self],
            chooseJoinKey seed jg, wg, sm⟩⟩
        (chooseJoinKey seed jg) wg).2 :=
  ⟨rfl, rfl⟩

/-! ## The claims -/

/-- Claim C3: resolving an unknown join or watch token sends exactly one
`error` event, "Game not found.", to the requesting connection and returns
without creating or mutating any registry entry, broadcast set or game state
(the world is returned unchanged) and without running any further part of
the flow. -/
theorem claim3_unknown_token :
    (∀ (cw : List Move → Option Player) (w : World) (self : ConnId)
        (tok : String) (msgs : List ClientMsg), dget w.JOIN tok = none →
      joinFlow cw w self tok msgs =
        ⟨w, [Action.send self (Event.error "Game not found.")],
          Outcome.ok, false⟩) ∧
    (∀ (w : World) (self : ConnId) (tok : String) (msgs : List ClientMsg),
      dget w.WATCH tok = none →
      watchFlow w self tok msgs =
        ⟨w, [Action.send self (Event.error "Game not found.")],
          Outcome.ok, false⟩) := by
  constructor
  · intro cw w self tok msgs h
    simp only [joinFlow, h]
  · intro w self tok msgs h
    simp only [watchFlow, h]

/-- Witness for C3: joining and watching an empty registry with any token
yields exactly the single error event and leaves the world untouched. -/
theorem claim3_unknown_token_witness :
    joinFlow (fun _ => none) ⟨[], [], []⟩ 0 "nope" [] =
      ⟨⟨[], [], []⟩, [Action.send 0 (Event.error "Game not found.")],
        Outcome.ok, false⟩ ∧
    watchFlow ⟨[], [], []⟩ 0 "nope" [] =
      ⟨⟨[], [], []⟩, [Action.send 0 (Event.error "Game not found.")],
        Outcome.ok, false⟩ :=
  ⟨claim3_unknown_token.1 (fun _ => none) ⟨[], [], []⟩ 0 "nope" [] rfl,
   claim3_unknown_token.2 ⟨[], [], []⟩ 0 "nope" [] rfl⟩

/-- Claim C7, amended: for every connection whose flow reaches its `init`
send — every start, and every join/watch whose token resolves — exactly one
`init` event is sent and it is the first server-to-client message.  The
amendment is forced by the resolution-failure path: a join/watch with an
unknown token receives a single `error` and no `init` at all (see the
counterexample), and a malformed handshake receives nothing. -/
theorem claim7_init_first (cw : List Move → Option Player) (w : World)
    (self : ConnId) (h : Handshake) (sid : Nat)
    (jg wg sm : String) (msgs : List ClientMsg)
    (hres : resolvesB w h = true) :
    countEvents Event.isInit
        (handler cw w self h sid jg wg sm msgs).trace = 1 ∧
    headIsInitFor self (handler cw w self h sid jg wg sm msgs).trace
      = true := by
  cases h with
  | malformed => simp [resolvesB] at hres
  | startNew seed =>
    constructor
    · show countEvents Event.isInit
        (startFlow cw w self seed sid jg wg sm msgs).trace = 1
      rw [startFlow_trace, countEvents_cons, countEvents_playLoop_init]
      rfl
    · show headIsInitFor self
        (startFlow cw w self seed sid jg wg sm msgs).trace = true
      rw [startFlow_trace]
      simp [headIsInitFor, Event.isInit]
  | joinGame t =>
    simp only [resolvesB] at hres
    cases hj : dget w.JOIN t with
    | none =>
      simp only [hj] at hres
      exact Bool.noConfusion hres
    | some sid' =>
      simp only [hj] at hres
      cases hs : dget w.sessions sid' with
      | none =>
        simp only [hs, Option.isSome_none] at hres
        exact Bool.noConfusion hres
      | some s =>
        have hfl := joinFlow_resolved cw w self t msgs sid' s hj hs
        constructor
        · show countEvents Event.isInit (joinFlow cw w self t msgs).trace = 1
          rw [hfl]
          simp only []
          rw [countEvents_cons, countEvents_append,
            countEvents_playLoop_init, countEvents_replayActions_init]
          rfl
        · show headIsInitFor self (joinFlow cw w self t msgs).trace = true
          rw [hfl]
          simp [headIsInitFor, Event.isInit]
  | watchGame t =>
    simp only [resolvesB] at hres
    cases hw : dget w.WATCH t with
    | none =>
      simp only [hw] at hres
      exact Bool.noConfusion hres
    | some sid' =>
      simp only [hw] at hres
      cases hs : dget w.sessions sid' with
      | none =>
        simp only [hs, Option.isSome_none] at hres
        exact Bool.noConfusion hres
      | some s =>
        have hfl := watchFlow_resolved w self t msgs sid' s hw hs
        constructor
        · show countEvents Event.isInit (watchFlow w self t msgs).trace = 1
          rw [hfl]
          simp only []
          rw [countEvents_cons, countEvents_replayActions_init]
          rfl
        · show headIsInitFor self (watchFlow w self t msgs).trace = true
          rw [hfl]
          simp [headIsInitFor, Event.isInit]

/-- Witness for C7 (amended) at a concrete start connection. -/
theorem claim7_init_first_witness :
    countEvents Event.isInit
        (handler (fun _ => none) ⟨[], [], []⟩ 5 (Handshake.startNew none)
          0 "j" "w" "s" []).trace = 1 ∧
    headIsInitFor 5
        (handler (fun _ => none) ⟨[], [], []⟩ 5 (Handshake.startNew none)
          0 "j" "w" "s" []).trace = true :=
  claim7_init_first (fun _ => none) ⟨[], [], []⟩ 5 (Handshake.startNew none)
    0 "j" "w" "s" [] rfl

/-- Counterexample to C7 as stated: a connection routed to the join flow
with an unregistered token receives zero `init` events — not exactly one —
and the first (and only) message it receives is an `error` event, so `init`
is not the first server-to-client message on every connection. -/
theorem claim7_counterexample :
    countEvents Event.isInit
        (handler (fun _ => none) ⟨[], [], []⟩ 0 (Handshake.joinGame "x")
          0 "j" "w" "s" []).trace = 0 ∧
    ¬ countEvents Event.isInit
        (handler (fun _ => none) ⟨[], [], []⟩ 0 (Handshake.joinGame "x")
          0 "j" "w" "s" []).trace = 1 ∧
    (handler (fun _ => none) ⟨[], [], []⟩ 0 (Handshake.joinGame "x")
        0 "j" "w" "s" []).trace =
      [Action.send 0 (Event.error "Game not found.")] := by
  decide

/-- Claim C8, amended: the `init` event carries the session's join token for
the `player1` role and — against the claim — also for the `player2` role
(`join` sends `"join": game.join`, app.py line 144); only the `spectator`
`init` omits the join-token field.  All roles receive the watch token and
the session-start marker. -/
theorem claim8_init_tokens :
    (∀ (cw : List Move → Option Player) (w : World) (self : ConnId)
        (tok : String) (msgs : List ClientMsg) (sid : Nat) (s : Session),
      dget w.JOIN tok = some sid → dget w.sessions sid = some s →
      (joinFlow cw w self tok msgs).trace.head? =
        some (Action.send self
          (Event.init Role.player2 (some s.joinTok) s.watchTok
            s.startMark))) ∧
    (∀ (w : World) (self : ConnId) (tok : String) (msgs : List ClientMsg)
        (sid : Nat) (s : Session),
      dget w.WATCH tok = some sid → dget w.sessions sid = some s →
      (watchFlow w self tok msgs).trace.head? =
        some (Action.send self
          (Event.init Role.spectator none s.watchTok s.startMark))) ∧
    (∀ (cw : List Move → Option Player) (w : World) (self : ConnId)
        (seed : Option String) (sid : Nat) (jg wg sm : String)
        (msgs : List ClientMsg),
      (startFlow cw w self seed sid jg wg sm msgs).trace.head? =
        some (Action.send self
          (Event.init Role.player1 (some (chooseJoinKey seed jg)) wg
            sm))) := by
  refine ⟨?_, ?_, ?_⟩
  · intro cw w self tok msgs sid s hj hs
    rw [joinFlow_resolved cw w self tok msgs sid s hj hs]
    rfl
  · intro w self tok msgs sid s hw hs
    rw [watchFlow_resolved w self tok msgs sid s hw hs]
    rfl
  · intro cw w self seed sid jg wg sm msgs
    rw [startFlow_trace]
    rfl

/-- Witness for C8 (amended) on a concrete registered session: the joining
player's `init` carries the join token "k", the spectator's carries none. -/
theorem claim8_init_tokens_witness :
    (joinFlow (fun _ => none)
        ⟨[("k", 0)], [("w", 0)],
          [(0, ⟨Connect4.new, [0], "k", "w", "s"⟩)]⟩ 1 "k" []).trace.head? =
      some (Action.send 1 (Event.init Role.player2 (some "k") "w" "s")) ∧
    (watchFlow
        ⟨[("k", 0)], [("w", 0)],
          [(0, ⟨Connect4.new, [0], "k", "w", "s"⟩)]⟩ 2 "w" []).trace.head? =
      some (Action.send 2 (Event.init Role.spectator none "w" "s")) :=
  ⟨claim8_init_tokens.1 (fun _ => none)
      ⟨[("k", 0)], [("w", 0)], [(0, ⟨Connect4.new, [0], "k", "w", "s"⟩)]⟩
      1 "k" [] 0 ⟨Connect4.new, [0], "k", "w", "s"⟩ rfl rfl,
   claim8_init_tokens.2.1
      ⟨[("k", 0)], [("w", 0)], [(0, ⟨Connect4.new, [0], "k", "w", "s"⟩)]⟩
      2 "w" [] 0 ⟨Connect4.new, [0], "k", "w", "s"⟩ rfl rfl⟩

/-- Counterexample to C8 as stated: on a registered session the second
player's `init` event does carry the join-token field (`"join": game.join`),
so the trace violates the property that only `player1` receives it. -/
theorem claim8_counterexample :
    noJoinOutsidePlayer1
      (joinFlow (fun _ => none)
        ⟨[("k", 0)], [("w", 0)],
          [(0, ⟨Connect4.new, [0], "k", "w", "s"⟩)]⟩ 1 "k" []).trace
      = false := by
  decide

/-- Claim C9, amended: the spectator flow sends `init` and the replay and
then idles until the connection closes (`websocket.wait_closed()`): its
entire behaviour is independent of any inbound messages, which are never
read — they are silently ignored rather than being treated as a protocol
violation.  In particular no inbound spectator message is ever applied as a
move (the session's game is unchanged), no `error` is sent, and the flow
still ends normally. -/
theorem claim9_spectator (w : World) (self : ConnId) (tok : String)
    (msgs : List ClientMsg) :
    watchFlow w self tok msgs = watchFlow w self tok [] ∧
    ∀ (sid : Nat) (s : Session), dget w.WATCH tok = some sid →
      dget w.sessions sid = some s →
      (watchFlow w self tok msgs).outcome = Outcome.ok ∧
      (watchFlow w self tok msgs).trace =
        Action.send self
            (Event.init Role.spectator none s.watchTok s.startMark)
          :: replayActions self s.game.moves ∧
      dget (watchFlow w self tok msgs).world.sessions sid =
        some ⟨s.game, removeMember (addMember s.members self) self,
          s.joinTok, s.watchTok, s.startMark⟩ ∧
      countEvents Event.isError (watchFlow w self tok msgs).trace = 0 := by
  refine ⟨rfl, fun sid s hw hs => ?_⟩
  have hfl := watchFlow_resolved w self tok msgs sid s hw hs
  refine ⟨?_, ?_, ?_, ?_⟩
  · rw [hfl]
  · rw [hfl]
  · rw [hfl]
    show dget (dset w.sessions sid _) sid = _
    rw [dget_dset_self]
  · rw [hfl]
    show countEvents Event.isError
      (Action.send self (Event.init Role.spectator none s.watchTok
        s.startMark) :: replayActions self s.game.moves) = 0
    rw [countEvents_cons, countEvents_replayActions_error]
    rfl

/-- Witness for C9 (amended) on a concrete session with one spectator
message pending. -/
theorem claim9_spectator_witness :
    (watchFlow
        ⟨[("k", 0)], [("w", 0)],
          [(0, ⟨Connect4.new, [0], "k", "w", "s"⟩)]⟩ 2 "w"
        [ClientMsg.play 3]).outcome = Outcome.ok ∧
    countEvents Event.isError
      (watchFlow
        ⟨[("k", 0)], [("w", 0)],
          [(0, ⟨Connect4.new, [0], "k", "w", "s"⟩)]⟩ 2 "w"
        [ClientMsg.play 3]).trace = 0 :=
  ⟨((claim9_spectator
      ⟨[("k", 0)], [("w", 0)], [(0, ⟨Connect4.new, [0], "k", "w", "s"⟩)]⟩
      2 "w" [ClientMsg.play 3]).2 0
      ⟨Connect4.new, [0], "k", "w", "s"⟩ rfl rfl).1,
   ((claim9_spectator
      ⟨[("k", 0)], [("w", 0)], [(0, ⟨Connect4.new, [0], "k", "w", "s"⟩)]⟩
      2 "w" [ClientMsg.play 3]).2 0
      ⟨Connect4.new, [0], "k", "w", "s"⟩ rfl rfl).2.2.2⟩

/-- Counterexample to C9 as stated: a spectator connection that sends a
`play` message (and then a malformed one) is not treated as a protocol
violation in any observable way: the flow's result is identical to the one
with no inbound message at all — outcome `ok`, no `error` event, no
termination — i.e. the message is silently ignored. -/
theorem claim9_counterexample :
    watchFlow
        ⟨[("k", 0)], [("w", 0)],
          [(0, ⟨Connect4.new, [0], "k", "w", "s"⟩)]⟩ 2 "w"
        [ClientMsg.play 3, ClientMsg.malformed] =
      watchFlow
        ⟨[("k", 0)], [("w", 0)],
          [(0, ⟨Connect4.new, [0], "k", "w", "s"⟩)]⟩ 2 "w" [] ∧
    (watchFlow
        ⟨[("k", 0)], [("w", 0)],
          [(0, ⟨Connect4.new, [0], "k", "w", "s"⟩)]⟩ 2 "w"
        [ClientMsg.play 3, ClientMsg.malformed]).outcome = Outcome.ok ∧
    ¬ (watchFlow
        ⟨[("k", 0)], [("w", 0)],
          [(0, ⟨Connect4.new, [0], "k", "w", "s"⟩)]⟩ 2 "w"
        [ClientMsg.play 3, ClientMsg.malformed]).outcome
        = Outcome.violation := by
  decide

/-- Claim C2, amended: the `finally` of `start` runs on every exit path of
the `try` body (modelled by quantifying over every inbound message list,
including protocol-violating ones), and whenever the session's join and
watch tokens are still registered at that point its two `del` statements
succeed, remove exactly those two entries and leave every other entry
untouched.  In particular an uninterleaved `start` flow always unregisters
both tokens and never raises.  The amendment is forced by the join-seed
collision of C10: if another start flow overwrote the shared join key and
already deleted it, the late flow's `del JOIN[join_key]` raises `KeyError`
and its watch entry leaks (see the counterexample). -/
theorem claim2_unregister :
    (∀ (cw : List Move → Option Player) (w : World) (self : ConnId)
        (seed : Option String) (sid : Nat) (jg wg sm : String)
        (msgs : List ClientMsg),
      (startFlow cw w self seed sid jg wg sm msgs).cleanupRaised = false ∧
      dget (startFlow cw w self seed sid jg wg sm msgs).world.JOIN
        (chooseJoinKey seed jg) = none ∧
      dget (startFlow cw w self seed sid jg wg sm msgs).world.WATCH wg
        = none) ∧
    (∀ (w : World) (jk wk : String),
      (dget w.JOIN jk).isSome = true → (dget w.WATCH wk).isSome = true →
      (unregisterStart w jk wk).2 = false ∧
      dget (unregisterStart w jk wk).1.JOIN jk = none ∧
      dget (unregisterStart w jk wk).1.WATCH wk = none ∧
      (∀ k : String, ¬ k = jk →
        dget (unregisterStart w jk wk).1.JOIN k = dget w.JOIN k) ∧
      (∀ k : String, ¬ k = wk →
        dget (unregisterStart w jk wk).1.WATCH k = dget w.WATCH k)) := by
  have main : ∀ (w : World) (jk wk : String),
      (dget w.JOIN jk).isSome = true → (dget w.WATCH wk).isSome = true →
      (unregisterStart w jk wk).2 = false ∧
      dget (unregisterStart w jk wk).1.JOIN jk = none ∧
      dget (unregisterStart w jk wk).1.WATCH wk = none ∧
      (∀ k : String, ¬ k = jk →
        dget (unregisterStart w jk wk).1.JOIN k = dget w.JOIN k) ∧
      (∀ k : String, ¬ k = wk →
        dget (unregisterStart w jk wk).1.WATCH k = dget w.WATCH k) := by
    intro w jk wk h1 h2
    rw [unregisterStart_present w jk wk h1 h2]
    exact ⟨rfl, dget_derase_self w.JOIN jk, dget_derase_self w.WATCH wk,
      fun k hk => dget_derase_ne w.JOIN jk k hk,
      fun k hk => dget_derase_ne w.WATCH wk k hk⟩
  refine ⟨?_, main⟩
  intro cw w self seed sid jg wg sm msgs
  obtain ⟨hw, hr⟩ := startFlow_world cw w self seed sid jg wg sm msgs
  have h1 : (dget (dset w.JOIN (chooseJoinKey seed jg) sid)
      (chooseJoinKey seed jg)).isSome = true := by
    rw [dget_dset_self]
    rfl
  have h2 : (dget (dset w.WATCH wg sid) wg).isSome = true := by
    rw [dget_dset_self]
    rfl
  obtain ⟨u1, u2, u3, _, _⟩ := main
    ⟨dset w.JOIN (chooseJoinKey seed jg) sid, dset w.WATCH wg sid,
     dset (dset w.sessions sid
        ⟨Connect4.new, [self], chooseJoinKey seed jg, wg, sm⟩) sid
       ⟨(playLoop cw Player.p1 [self] self Connect4.new msgs).1, [self],
        chooseJoinKey seed jg, wg, sm⟩⟩
    (chooseJoinKey seed jg) wg h1 h2
  rw [hw, hr]
  exact ⟨u1, u2, u3⟩

/-- Witness for C2 (amended): a concrete start flow that ends after a
protocol violation still unregisters both tokens without raising, and a
registry holding both tokens is cleaned up exactly. -/
theorem claim2_unregister_witness :
    ((startFlow (fun _ => none) ⟨[], [], []⟩ 0 (some "k") 0 "g" "w" "s"
        [ClientMsg.play 3, ClientMsg.malformed]).cleanupRaised = false ∧
      dget (startFlow (fun _ => none) ⟨[], [], []⟩ 0 (some "k") 0 "g" "w" "s"
        [ClientMsg.play 3, ClientMsg.malformed]).world.JOIN
          (chooseJoinKey (some "k") "g") = none ∧
      dget (startFlow (fun _ => none) ⟨[], [], []⟩ 0 (some "k") 0 "g" "w" "s"
        [ClientMsg.play 3, ClientMsg.malformed]).world.WATCH "w" = none) ∧
    ((unregisterStart ⟨[("a", 0)], [("b", 0)], []⟩ "a" "b").2 = false ∧
      dget (unregisterStart ⟨[("a", 0)], [("b", 0)], []⟩ "a" "b").1.JOIN "a"
        = none ∧
      dget (unregisterStart ⟨[("a", 0)], [("b", 0)], []⟩ "a" "b").1.WATCH "b"
        = none) :=
  ⟨claim2_unregister.1 (fun _ => none) ⟨[], [], []⟩ 0 (some "k") 0 "g" "w"
      "s" [ClientMsg.play 3, ClientMsg.malformed],
   ⟨(claim2_unregister.2 ⟨[("a", 0)], [("b", 0)], []⟩ "a" "b" rfl rfl).1,
    (claim2_unregister.2 ⟨[("a", 0)], [("b", 0)], []⟩ "a" "b" rfl rfl).2.1,
    (claim2_unregister.2 ⟨[("a", 0)], [("b", 0)], []⟩ "a" "b" rfl rfl).2.2.1⟩⟩

/-- Counterexample to C2 as stated: session A (sid 0, watch token "wa") and
session B (sid 1, watch token "wb") both start with the caller-chosen join
seed "k" (the seed comes straight from the client's `joinID` handshake
field, so this is reachable; registration and cleanup are synchronous steps
between the flows' suspension points, so this interleaving is admitted by
the spec's concurrency model).  B's registration overwrites `JOIN["k"]`;
A exits first and its cleanup deletes `JOIN["k"]` and `WATCH["wa"]`; B's
cleanup then raises `KeyError` on `del JOIN["k"]`, so `del WATCH["wb"]`
never runs: removal fails and B's watch entry leaks — refuting both
"removal never fails" and "after any such exit no registry entry for either
token remains". -/
theorem claim2_counterexample :
    (unregisterStart
        (unregisterStart
          (startRegister
            (startRegister ⟨[], [], []⟩ 0 (some "k") 0 "g0" "wa" "s0").1
            1 (some "k") 1 "g1" "wb" "s1").1
          "k" "wa").1
        "k" "wb").2 = true ∧
    dget (unregisterStart
        (unregisterStart
          (startRegister
            (startRegister ⟨[], [], []⟩ 0 (some "k") 0 "g0" "wa" "s0").1
            1 (some "k") 1 "g1" "wb" "s1").1
          "k" "wa").1
        "k" "wb").1.WATCH "wb" = some 1 := by
  decide

/-- Claim C10: when a start request supplies a caller-chosen join seed `k`
equal to a join token already registered (to session `sidA`), registering
the new session `sidB` overwrites the registry entry — last writer wins —
so `k` now resolves to `sidB` and no longer to `sidA`, even though session
`sidA` was not torn down (its watch entry and its session record are
untouched); and whichever of the two flows' cleanups then runs first on the
shared key deletes whatever entry is currently stored under it. -/
theorem claim10_seed_collision (w : World) (selfB : ConnId)
    (k wa jgB wb smB : String) (sidA sidB : Nat)
    (hA : dget w.JOIN k = some sidA)
    (hWa : dget w.WATCH wa = some sidA)
    (hk : ¬ k = "")
    (hwb : ¬ wa = wb)
    (hsid : ¬ sidA = sidB) :
    dget (startRegister w selfB (some k) sidB jgB wb smB).1.JOIN k
      = some sidB ∧
    ¬ dget (startRegister w selfB (some k) sidB jgB wb smB).1.JOIN k
      = some sidA ∧
    dget (startRegister w selfB (some k) sidB jgB wb smB).1.WATCH wa
      = some sidA ∧
    dget (startRegister w selfB (some k) sidB jgB wb smB).1.sessions sidA
      = dget w.sessions sidA ∧
    dget (unregisterStart (startRegister w selfB (some k) sidB jgB wb smB).1
        k wa).1.JOIN k = none ∧
    dget (unregisterStart (startRegister w selfB (some k) sidB jgB wb smB).1
        k wb).1.JOIN k = none := by
  have hck : chooseJoinKey (some k) jgB = k := by
    simp [chooseJoinKey, hk]
  have hreg : (startRegister w selfB (some k) sidB jgB wb smB).1 =
      ⟨dset w.JOIN k sidB, dset w.WATCH wb sidB,
       dset w.sessions sidB ⟨Connect4.new, [selfB], k, wb, smB⟩⟩ := by
    simp only [startRegister, hck]
  rw [hreg]
  have hJ : dget (dset w.JOIN k sidB) k = some sidB := dget_dset_self _ _ _
  refine ⟨hJ, ?_, ?_, ?_, ?_, ?_⟩
  · rw [hJ]
    intro hh
    exact hsid (Option.some.inj hh).symm
  · rw [dget_dset_ne w.WATCH wb wa sidB hwb]
    exact hWa
  · exact dget_dset_ne w.sessions sidB sidA _ (fun hh => hsid hh)
  · have h1 : (dget (dset w.JOIN k sidB) k).isSome = true := by
      rw [hJ]
      rfl
    cases hdw : ddel (dset w.WATCH wb sidB) wa with
    | none =>
      simp only [unregisterStart, ddel_of_isSome _ k h1, hdw]
      exact dget_derase_self _ k
    | some wd =>
      simp only [unregisterStart, ddel_of_isSome _ k h1, hdw]
      exact dget_derase_self _ k
  · have h1 : (dget (dset w.JOIN k sidB) k).isSome = true := by
      rw [hJ]
      rfl
    cases hdw : ddel (dset w.WATCH wb sidB) wb with
    | none =>
      simp only [unregisterStart, ddel_of_isSome _ k h1, hdw]
      exact dget_derase_self _ k
    | some wd =>
      simp only [unregisterStart, ddel_of_isSome _ k h1, hdw]
      exact dget_derase_self _ k

/-- Witness for C10 on a concrete registry: session 0 registered "k"/"wa",
then session 1 starts with seed "k" and watch "wb". -/
theorem claim10_seed_collision_witness :
    dget (startRegister ⟨[("k", 0)], [("wa", 0)], []⟩ 1 (some "k") 1
        "g1" "wb" "s1").1.JOIN "k" = some 1 ∧
    dget (startRegister ⟨[("k", 0)], [("wa", 0)], []⟩ 1 (some "k") 1
        "g1" "wb" "s1").1.WATCH "wa" = some 0 ∧
    dget (unregisterStart (startRegister ⟨[("k", 0)], [("wa", 0)], []⟩ 1
        (some "k") 1 "g1" "wb" "s1").1 "k" "wa").1.JOIN "k" = none :=
  ⟨(claim10_seed_collision ⟨[("k", 0)], [("wa", 0)], []⟩ 1 "k" "wa" "g1"
      "wb" "s1" 0 1 rfl rfl (by decide) (by decide) (by decide)).1,
   (claim10_seed_collision ⟨[("k", 0)], [("wa", 0)], []⟩ 1 "k" "wa" "g1"
      "wb" "s1" 0 1 rfl rfl (by decide) (by decide) (by decide)).2.2.1,
   (claim10_seed_collision ⟨[("k", 0)], [("wa", 0)], []⟩ 1 "k" "wa" "g1"
      "wb" "s1" 0 1 rfl rfl (by decide) (by decide)
      (by decide)).2.2.2.2.1⟩

/-- Claim C1: when the engine rejects a submitted move (full column, game
already over, out of turn, out-of-range column), the game state is not
mutated, exactly one `error` event is sent, to the submitting connection
only, and the message loop continues with the remaining messages exactly as
if the rejected move had never been submitted — neither the connection nor
the session is terminated.  The engine's own promise not to mutate state on
rejection is modelled from the spec (sections 6 and 8). -/
theorem claim1_rejected_move (cw : List Move → Option Player) (g : Connect4)
    (p : Player) (ms : List ConnId) (self : ConnId) (c : Int) (msg : String)
    (h : Connect4.play cw g p c = Except.error msg) :
    playStep cw g p ms self c = (g, [Action.send self (Event.error msg)]) ∧
    ∀ rest : List ClientMsg,
      playLoop cw p ms self g (ClientMsg.play c :: rest) =
        ((playLoop cw p ms self g rest).1,
         Action.send self (Event.error msg) ::
           (playLoop cw p ms self g rest).2.1,
         (playLoop cw p ms self g rest).2.2) := by
  have hs := playStep_error cw g p ms self c msg h
  refine ⟨hs, fun rest => ?_⟩
  simp [playLoop, hs]

/-- Witness for C1 at a concrete rejected move: the second player moving
first is out of turn; the loop then continues with the rest of the
messages. -/
theorem claim1_rejected_move_witness :
    playStep (fun _ => none) Connect4.new Player.p2 [0, 1] 1 3 =
      (Connect4.new, [Action.send 1 (Event.error "It is not your turn.")]) ∧
    playLoop (fun _ => none) Player.p2 [0, 1] 1 Connect4.new
        [ClientMsg.play 3] =
      ((playLoop (fun _ => none) Player.p2 [0, 1] 1 Connect4.new []).1,
       Action.send 1 (Event.error "It is not your turn.") ::
         (playLoop (fun _ => none) Player.p2 [0, 1] 1 Connect4.new []).2.1,
       (playLoop (fun _ => none) Player.p2 [0, 1] 1 Connect4.new []).2.2) :=
  ⟨(claim1_rejected_move (fun _ => none) Connect4.new Player.p2 [0, 1] 1 3
      "It is not your turn." rfl).1,
   (claim1_rejected_move (fun _ => none) Connect4.new Player.p2 [0, 1] 1 3
      "It is not your turn." rfl).2 []⟩

/-- Claim C4: for every move the engine accepts, exactly one `play` event —
carrying the submitting player, the submitted column, the landing row
returned by the engine, and the new total move count `len(game.moves)` — is
broadcast, and its target list is the session's current broadcast set `ms`
in full; the flows always run the loop with a broadcast set containing the
submitter (`start` with `{websocket}`, `join` after `websocketSet.add`,
modelled by `addMember`), so the submitter receives it too.  The move-count
arithmetic relies on the engine model (appending one move per accepted
play), modelled from the spec. -/
theorem claim4_accepted_move (cw : List Move → Option Player) (g : Connect4)
    (p : Player) (ms : List ConnId) (self : ConnId) (c : Int)
    (g' : Connect4) (row : Nat)
    (h : Connect4.play cw g p c = Except.ok (g', row)) :
    (playStep cw g p ms self c).2 =
      Action.broadcast ms (Event.play p c row g'.moves.length) ::
        (match g'.winner with
         | some w => [Action.broadcast ms (Event.win w)]
         | none => []) ∧
    countEvents Event.isPlay (playStep cw g p ms self c).2 = 1 ∧
    g'.moves.length = g.moves.length + 1 ∧
    (playStep cw g p ms self c).1 = g' ∧
    ∀ (l : List ConnId) (x : ConnId), x ∈ addMember l x := by
  have hmv := (play_ok_spec cw g p c g' row h).2.2.1
  refine ⟨?_, ?_, ?_, ?_, ?_⟩
  · rw [playStep_ok cw g p ms self c g' row h]
  · rw [playStep_ok cw g p ms self c g' row h]
    cases g'.winner <;>
      simp [countEvents, List.filter_cons, Action.event, Event.isPlay,
        Event.isWin]
  · rw [hmv]
    simp
  · rw [playStep_ok cw g p ms self c g' row h]
  · intro l x
    unfold addMember
    by_cases hx : x ∈ l <;> simp [hx]

/-- Witness for C4 at a concrete accepted move: player 1 opens in column 3;
the whole broadcast set, submitter included, is targeted. -/
theorem claim4_accepted_move_witness :
    (playStep (fun _ => none) Connect4.new Player.p1 [0, 1] 0 3).2 =
      [Action.broadcast [0, 1] (Event.play Player.p1 3 0 1)] ∧
    countEvents Event.isPlay
      (playStep (fun _ => none) Connect4.new Player.p1 [0, 1] 0 3).2 = 1 ∧
    (0 : ConnId) ∈ addMember [1] 0 := by
  have h := claim4_accepted_move (fun _ => none) Connect4.new Player.p1
    [0, 1] 0 3 ⟨[⟨Player.p1, 3, 0⟩], none⟩ 0 rfl
  exact ⟨by simpa using h.1, h.2.1, h.2.2.2.2 [1] 0⟩

/-- Claim C5: over a whole session lifetime — any interleaving of the two
players' submissions against the shared game, starting from any game state —
a `win` event is broadcast at most once; a step broadcasts a `win` only when
its own move was accepted and turned the engine's winner from absent to
decided, and then the `win` broadcast immediately follows that move's `play`
broadcast; replay never emits a `win`.  No repetition is possible because the
engine, modelled from the spec, rejects every move once the game is over. -/
theorem claim5_win_once (cw : List Move → Option Player)
    (connOf : Player → ConnId) (ms : List ConnId) :
    (∀ (g : Connect4) (l : List (Player × Int)),
      countEvents Event.isWin (runMoves cw connOf ms g l).2 ≤ 1) ∧
    (∀ (g : Connect4) (mem : List ConnId) (self : ConnId) (c : Int)
        (p : Player),
      0 < countEvents Event.isWin (playStep cw g p mem self c).2 →
      ∃ w g' row, Connect4.play cw g p c = Except.ok (g', row) ∧
        g.winner = none ∧ g'.winner = some w ∧
        (playStep cw g p mem self c).2 =
          [Action.broadcast mem (Event.play p c row g'.moves.length),
           Action.broadcast mem (Event.win w)]) ∧
    (∀ (self : ConnId) (moves : List Move),
      countEvents Event.isWin (replayActions self moves) = 0) := by
  refine ⟨fun g l => winCount_runMoves cw connOf ms l g, ?_,
    countEvents_replayActions_win⟩
  intro g mem self c p hpos
  obtain ⟨w, g', row, hok, hwn, hws, _, htr⟩ :=
    playStep_win_inversion cw g p mem self c hpos
  exact ⟨w, g', row, hok, hwn, hws, htr⟩

/-- Witness for C5 at a concrete winning move: with a `checkWin` that decides
the game after one move, player 1's first move yields exactly the `play`
broadcast immediately followed by the single `win` broadcast. -/
theorem claim5_win_once_witness :
    (playStep (fun l => if l.length = 1 then some Player.p1 else none)
        Connect4.new Player.p1 [0] 0 0).2 =
      [Action.broadcast [0] (Event.play Player.p1 0 0 1),
       Action.broadcast [0] (Event.win Player.p1)] := by
  obtain ⟨w, g', row, hok, hwn, hws, htr⟩ :=
    (claim5_win_once (fun l => if l.length = 1 then some Player.p1 else none)
        (fun _ => 0) [0]).2.1 Connect4.new [0] 0 0 Player.p1 (by decide)
  have hcalc : Connect4.play
      (fun l => if l.length = 1 then some Player.p1 else none)
      Connect4.new Player.p1 0 =
      Except.ok ((⟨[⟨Player.p1, 0, 0⟩], some Player.p1⟩ : Connect4), 0) := rfl
  have hpair : ((⟨[⟨Player.p1, 0, 0⟩], some Player.p1⟩ : Connect4), 0) =
      (g', row) := Except.ok.inj (hcalc.symm.trans hok)
  rw [Prod.mk.injEq] at hpair
  obtain ⟨hg, hr⟩ := hpair
  have hw1 : w = Player.p1 := by
    rw [← hg] at hws
    exact (Option.some.inj hws).symm
  rw [htr, ← hg, ← hr, hw1]
  simp

/-- Claim C6: the replay engine works on a point-in-time copy of the move
sequence (`game.moves.copy()`, modelled by passing the list by value) and
sends to the attached connection exactly one `play` event per historical
move — the trace has exactly the snapshot's length — in the original order,
the i-th event (0-based `i`) carrying move index `i + 1` as its cumulative
move count and the move's own player, column and row. -/
theorem claim6_replay (self : ConnId) (moves : List Move) :
    (replayActions self moves).length = moves.length ∧
    ∀ (i : Nat) (m : Move), moves.get? i = some m →
      (replayActions self moves).get? i =
        some (Action.send self
          (Event.play m.player m.column m.row (i + 1))) := by
  constructor
  · exact replayFrom_length self moves 0
  · intro i m h
    have := replayFrom_get self moves 0 i m h
    simpa using this

/-- Witness for C6 on a two-move history: the second replayed event carries
the second move and cumulative count 2. -/
theorem claim6_replay_witness :
    (replayActions 5 [⟨Player.p1, 3, 0⟩, ⟨Player.p2, 4, 0⟩]).length = 2 ∧
    (replayActions 5 [⟨Player.p1, 3, 0⟩, ⟨Player.p2, 4, 0⟩]).get? 1 =
      some (Action.send 5 (Event.play Player.p2 4 0 2)) :=
  ⟨(claim6_replay 5 [⟨Player.p1, 3, 0⟩, ⟨Player.p2, 4, 0⟩]).1,
   (claim6_replay 5 [⟨Player.p1, 3, 0⟩, ⟨Player.p2, 4, 0⟩]).2 1
     ⟨Player.p2, 4, 0⟩ rfl⟩

end TpConnect4
